import Mathlib

/-! Verification of the authentication / session layer of `src/app.py`
(a Streamlit app with a file-backed user store, bcrypt-hashed passwords
and JWT session tokens).

The shallow embedding below translates the relevant Python code:
* `UserDB` (`app.py:25-95`): an in-memory mapping username → record,
  embedded as an association list `Users`; the methods `_load_users`,
  `verify_password`, `authenticate_user`, `create_user` become pure
  state-passing functions.
* `create_access_token` / `verify_token` (`app.py:97-111`): JWT issuance
  and verification.  The external `jose` library is modelled with an
  explicit clock (`now : Nat`, seconds): a token verifies iff its
  signature matches and its `exp` claim has not passed (`python-jose`
  with zero leeway rejects exactly when `exp < now`).
* The external `bcrypt` library is modelled by a parameter structure
  `BcryptM`: `hashpw` takes the plaintext and a salt (the randomness of
  `gensalt()` made explicit), `checkpw` returns `none` where the real
  library raises (malformed hash).  Properties that the real bcrypt has
  (a hash of `p` checks against `p`; a hash is never the plaintext) are
  stated as explicit hypotheses (`BcryptM.Correct`, `BcryptM.NotPlain`)
  rather than baked into a concrete function.
* Session state and the module-level routing (`app.py:363-371`), the
  sidebar gate (`app.py:166`) and the logout handler (`app.py:209-211`).

File I/O is made explicit: `_load_users` receives the status of the file
(absent / parsed contents / raising an exception) as a parameter, and the
in-memory mapping held before the call as `prev`.
-/

namespace App

/-- A stored user record, `app.py:38-44` / `app.py:90-94`:
`{"hashed_password": ..., "name": ..., "role": ...}`. -/
structure UserRecord where
  hashed_password : String
  name : String
  role : String
deriving DecidableEq

/-- The in-memory user mapping `self.users` (a Python dict
username → record), embedded as an association list. -/
abbrev Users := List (String × UserRecord)

/-- Model of the external `bcrypt` library.  `hashpw pw salt` models
`bcrypt.hashpw(pw.encode(), bcrypt.gensalt()).decode()` with the random
salt made an explicit argument; `checkpw pw hash` models
`bcrypt.checkpw`, with `none` standing for a raised exception
(e.g. a malformed stored hash). -/
structure BcryptM where
  hashpw : String → Nat → String
  checkpw : String → String → Option Bool

/-- Correctness of the bcrypt model: checking a password against its own
hash succeeds. -/
def BcryptM.Correct (b : BcryptM) : Prop :=
  ∀ p s, b.checkpw p (b.hashpw p s) = some true

/-- One-wayness fragment of the bcrypt model used here: a hash is never
the plaintext itself (real bcrypt output is a fixed-format `$2b$...`
string). -/
def BcryptM.NotPlain (b : BcryptM) : Prop :=
  ∀ p s, b.hashpw p s ≠ p

/-- Embedding of `UserDB._hash_password`, `app.py:61-63`. -/
def hash_password (b : BcryptM) (salt : Nat) (password : String) : String :=
  b.hashpw password salt

/-- Embedding of `UserDB.verify_password`, `app.py:65-73`: calls `bcrypt.checkpw` and
returns `False` if it raises. -/
def verify_password (b : BcryptM) (plain_password hashed_password : String) : Bool :=
  match b.checkpw plain_password hashed_password with
  | some r => r
  | none => false

/-- Embedding of `UserDB.authenticate_user`, `app.py:75-82`: `None` if the username is
absent, `None` if the password check fails, else the stored record. -/
def authenticate_user (b : BcryptM) (users : Users)
    (username password : String) : Option UserRecord :=
  match users.lookup username with
  | none => none
  | some user =>
    if verify_password b password user.hashed_password then some user else none

/-- Embedding of `UserDB.create_user`, `app.py:84-95`, as a state transformer: the
first component is the outcome (`Except.error` models the raised
`ValueError("Username already exists")`), the second the mapping after
the call (`self.users` is untouched on the error path). -/
def create_user (b : BcryptM) (salt : Nat) (users : Users)
    (username password name role : String) : Except String Unit × Users :=
  if (users.lookup username).isSome then
    (Except.error "Username already exists", users)
  else
    (Except.ok (),
     users ++ [(username,
       { hashed_password := hash_password b salt password,
         name := name, role := role })])

/-- Embedding of `UserDB._load_users`, `app.py:31-51`, with the file system explicit:
`file = none` models a missing file (the default admin store is created,
hashing `st.secrets["ADMIN_PASSWORD"]`); `file = some (.ok u)` models a
successful `json.load`; `file = some (.error ())` models any exception
in the `try` block.  `prev` is the in-memory mapping held before the
call.  The first component of the result is whether `st.error` was
invoked (`app.py:50`); the second is `self.users` afterwards — on the
exception path the code sets `self.users = {}` (`app.py:51`). -/
def load_users (b : BcryptM) (salt : Nat) (admin_password : String)
    (file : Option (Except Unit Users)) (prev : Users) : Bool × Users :=
  match file with
  | none =>
    (false, [("admin",
      { hashed_password := hash_password b salt admin_password,
        name := "Administrator", role := "admin" })])
  | some (Except.ok u) => (false, u)
  | some (Except.error _) => (true, [])

/-- Invariant on a user mapping: the `hashed_password` field of every
stored record is an output of the (salted) hash function. -/
def HashedStore (b : BcryptM) (users : Users) : Prop :=
  ∀ kv ∈ users, ∃ pw s, kv.2.hashed_password = b.hashpw pw s

/-- Embedding of `ACCESS_TOKEN_EXPIRE_MINUTES`, `app.py:17`. -/
def ACCESS_TOKEN_EXPIRE_MINUTES : Nat := 30

/-- The JWT payload built by the app: `{"sub": ..., "role": ..., "exp": ...}`
(`app.py:101`, `app.py:121`).  `exp` is a Unix timestamp in seconds. -/
structure Claims where
  sub : String
  role : String
  exp : Nat
deriving DecidableEq

/-- The HS256 signature of `jose.jwt`, modelled as an injective pairing of
the secret with the payload (tamper- and key-sensitivity are all the
claims here need of it). -/
def jwtSign (secret : String) (c : Claims) : String :=
  secret ++ "." ++ c.sub ++ "." ++ c.role ++ "." ++ toString c.exp

/-- A signed token: payload plus signature. -/
structure Token where
  payload : Claims
  sig : String
deriving DecidableEq

/-- Embedding of `create_access_token`, `app.py:97-103`: copies the data, sets
`exp = utcnow + 30 minutes`, signs with the secret.  `now` is the
issuance time in seconds. -/
def create_access_token (secret : String) (now : Nat) (sub role : String) : Token :=
  let c : Claims := { sub := sub, role := role,
                      exp := now + ACCESS_TOKEN_EXPIRE_MINUTES * 60 }
  { payload := c, sig := jwtSign secret c }

/-- Embedding of `verify_token`, `app.py:105-111`: `jwt.decode` returns the payload if
the signature verifies and the token is not expired, and raises
(→ `none`) otherwise.  `python-jose` with zero leeway raises
`ExpiredSignatureError` exactly when `exp < now`. -/
def verify_token (secret : String) (now : Nat) (t : Token) : Option Claims :=
  if (t.sig == jwtSign secret t.payload) && decide (now ≤ t.payload.exp) then
    some t.payload
  else
    none

/-- The process-held Streamlit session state fields the auth layer uses
(`st.session_state.authenticated`, `.access_token`, `.user_role`,
`.username`). -/
structure SessionState where
  authenticated : Bool
  access_token : Option Token
  user_role : Option String
  username : Option String
deriving DecidableEq

/-- Embedding of `verify_session`, `app.py:147-156`: false if no token is held, false
if `verify_token` rejects it, true otherwise.  (Defined in the source
but never called.) -/
def verify_session (secret : String) (now : Nat) (s : SessionState) : Bool :=
  match s.access_token with
  | none => false
  | some tok =>
    match verify_token secret now tok with
    | none => false
    | some _ => true

/-- The two views the app can render. -/
inductive View where
  | login
  | main
deriving DecidableEq

/-- The module-level routing, `app.py:363-371`: when
`LOGIN_REQUIRED == "YES"`, render the login page unless
`st.session_state.authenticated`; otherwise always render the main app. -/
def route (login_required : String) (s : SessionState) : View :=
  if login_required == "YES" then
    if s.authenticated then View.main else View.login
  else
    View.main

/-- The sidebar gate inside `main_app`, `app.py:166`: the logout /
user-management sidebar is rendered iff `LOGIN_REQUIRED == "YES"`. -/
def sidebar_shown (login_required : String) : Bool :=
  login_required == "YES"

/-- The logout handler, `app.py:209-211`: sets
`st.session_state.authenticated = False` and reruns.  No other session
field is touched — in particular the access token is left in place. -/
def logout (s : SessionState) : SessionState :=
  { s with authenticated := false }

/-- Concrete bcrypt-model instance used by witnesses: the "hash" tags the
plaintext, so checking succeeds exactly on the original password and the
hash is never the plaintext. -/
def bcryptH : BcryptM where
  hashpw := fun p _ => "H" ++ p
  checkpw := fun p h => some (h == "H" ++ p)

/-- Concrete bcrypt-model instance whose `checkpw` always raises, used to
witness the exception-handling claims. -/
def bcryptRaise : BcryptM where
  hashpw := fun p _ => "H" ++ p
  checkpw := fun _ _ => none

/-- A concrete stored record used by witnesses. -/
def rec0 : UserRecord :=
  { hashed_password := "Hhunter2", name := "Alice", role := "user" }

/-- A concrete session state: the user authenticated at time 0 and the
session still holds the (now expired) token at time 4000 s, with the
`authenticated` flag still set. -/
def sExpired : SessionState :=
  { authenticated := true
    access_token := some (create_access_token "k" 0 "admin" "admin")
    user_role := some "admin"
    username := some "admin" }

/-- A concrete fresh session state: not authenticated, holding no token. -/
def sPlain : SessionState :=
  { authenticated := false
    access_token := none
    user_role := none
    username := none }

/-- A concrete logged-in session state holding a token, used to examine
the logout handler. -/
def sToken : SessionState :=
  { authenticated := true
    access_token := some (create_access_token "k" 0 "alice" "user")
    user_role := some "user"
    username := some "alice" }

/-! Helper lemmas. -/

/-- The concrete bcrypt-model instance satisfies `Correct`. -/
theorem bcryptH_correct : BcryptM.Correct bcryptH := by
  intro p s
  simp [bcryptH, BcryptM.Correct]

/-- The concrete bcrypt-model instance satisfies `NotPlain`. -/
theorem bcryptH_not_plain : BcryptM.NotPlain bcryptH := by
  intro p s h
  have hl := congrArg String.length h
  simp only [bcryptH] at hl
  rw [String.length_append] at hl
  have h1 : "H".length = 1 := rfl
  omega

/-- Appending a fresh key to an association list makes lookup of that key
find the appended record. -/
theorem lookup_append_last (l : Users) (u : String) (rec : UserRecord)
    (h : l.lookup u = none) : (l ++ [(u, rec)]).lookup u = some rec := by
  induction l with
  | nil => simp [List.lookup]
  | cons hd tl ih =>
    obtain ⟨k, v⟩ := hd
    simp only [List.cons_append, List.lookup] at h ⊢
    cases hbe : (u == k) with
    | true => rw [hbe] at h; simp at h
    | false => rw [hbe] at h; exact ih h

/-- A token verifies (against the secret it was signed with) at any time
up to and including its expiry timestamp. -/
theorem verify_create_of_le (secret : String) (t now : Nat) (sub role : String)
    (h : now ≤ t + ACCESS_TOKEN_EXPIRE_MINUTES * 60) :
    verify_token secret now (create_access_token secret t sub role) =
      some { sub := sub, role := role, exp := t + ACCESS_TOKEN_EXPIRE_MINUTES * 60 } := by
  simp [verify_token, create_access_token, h]

/-- A token no longer verifies once its expiry timestamp has passed. -/
theorem verify_create_of_gt (secret : String) (t now : Nat) (sub role : String)
    (h : t + ACCESS_TOKEN_EXPIRE_MINUTES * 60 < now) :
    verify_token secret now (create_access_token secret t sub role) = none := by
  have hn : ¬ (now ≤ t + ACCESS_TOKEN_EXPIRE_MINUTES * 60) := Nat.not_le.mpr h
  simp [verify_token, create_access_token, hn]

/-! Claim theorems. -/

/-- Claim C2: for every username not present in the store and every
password, display name and role, after `create_user` succeeds,
`authenticate_user` with the same username and password returns a record
whose display name and role equal those given at creation.  The bcrypt
model is assumed to check a password against its own hash
(`BcryptM.Correct`). -/
theorem create_then_authenticate (b : BcryptM) (hb : BcryptM.Correct b)
    (salt : Nat) (users : Users) (u p n r : String)
    (hu : users.lookup u = none) :
    ∃ users2,
      create_user b salt users u p n r = (Except.ok (), users2) ∧
      ∃ rec, authenticate_user b users2 u p = some rec ∧
        rec.name = n ∧ rec.role = r := by
  refine ⟨users ++ [(u, { hashed_password := hash_password b salt p,
                          name := n, role := r })], ?_, ?_⟩
  · simp [create_user, hu]
  · refine ⟨{ hashed_password := hash_password b salt p, name := n, role := r },
      ?_, rfl, rfl⟩
    have hlk := lookup_append_last users u
      { hashed_password := hash_password b salt p, name := n, role := r } hu
    simp only [hash_password] at hlk
    simp [authenticate_user, hash_password, hlk, verify_password, hb p salt]

/-- Witness for C2 at a concrete input: creating `alice`/`hunter2` in the
empty store and then authenticating her succeeds with the created name
and role. -/
theorem create_then_authenticate_witness :
    ∃ users2,
      create_user bcryptH 0 [] "alice" "hunter2" "Alice" "user" =
        (Except.ok (), users2) ∧
      ∃ rec, authenticate_user bcryptH users2 "alice" "hunter2" = some rec ∧
        rec.name = "Alice" ∧ rec.role = "user" :=
  create_then_authenticate bcryptH bcryptH_correct 0 [] "alice" "hunter2"
    "Alice" "user" rfl

/-- Claim C3: for every store and every username already present,
`create_user` fails with the duplicate-user error and returns the store
unchanged (the state on error equals the state before the call, so the
existing record and every other record are untouched). -/
theorem duplicate_create_unchanged (b : BcryptM) (salt : Nat) (users : Users)
    (u p n r : String) (rec : UserRecord) (hu : users.lookup u = some rec) :
    create_user b salt users u p n r =
      (Except.error "Username already exists", users) := by
  simp [create_user, hu]

/-- Witness for C3 at a concrete input: re-creating `alice` fails and the
store is returned unchanged. -/
theorem duplicate_create_unchanged_witness :
    create_user bcryptH 0 [("alice", rec0)] "alice" "pw2" "Mallory" "admin" =
      (Except.error "Username already exists", [("alice", rec0)]) :=
  duplicate_create_unchanged bcryptH 0 [("alice", rec0)] "alice" "pw2"
    "Mallory" "admin" rec0 rfl

/-- Claim C5: `authenticate_user` returns the stored record exactly when
the username exists and the password check against the stored hash
succeeds; an unknown username and a wrong password for an existing
username both yield the identical result `none`. -/
theorem authenticate_user_spec (b : BcryptM) (users : Users) (u p : String) :
    (∀ rec, authenticate_user b users u p = some rec ↔
      users.lookup u = some rec ∧
      verify_password b p rec.hashed_password = true) ∧
    (users.lookup u = none → authenticate_user b users u p = none) ∧
    (∀ rec, users.lookup u = some rec →
      verify_password b p rec.hashed_password = false →
      authenticate_user b users u p = none) := by
  refine ⟨?_, ?_, ?_⟩
  · intro rec
    constructor
    · intro h
      cases hlk : users.lookup u with
      | none => simp [authenticate_user, hlk] at h
      | some user =>
        cases hv : verify_password b p user.hashed_password with
        | true =>
          have h2 : authenticate_user b users u p = some user := by
            simp [authenticate_user, hlk, hv]
          rw [h2] at h
          have huser : user = rec := Option.some.inj h
          subst huser
          exact ⟨rfl, hv⟩
        | false =>
          have h2 : authenticate_user b users u p = none := by
            simp [authenticate_user, hlk, hv]
          rw [h2] at h
          simp at h
    · rintro ⟨hlk, hv⟩
      simp [authenticate_user, hlk, hv]
  · intro h
    simp [authenticate_user, h]
  · intro rec hlk hv
    simp [authenticate_user, hlk, hv]

/-- Witness for C5 at a concrete input: authenticating an unknown
username in the empty store yields `none`. -/
theorem authenticate_user_spec_witness :
    authenticate_user bcryptH [] "bob" "pw" = none :=
  (authenticate_user_spec bcryptH [] "bob" "pw").2.1 rfl

/-- Claim C4: a token produced by `create_access_token` embeds the
subject, the role, and an expiry 30 minutes (1800 s) from issuance;
`verify_token` returns the decoded claims at any time strictly before
that expiry and returns `none` once the expiry timestamp has passed. -/
theorem token_lifecycle (secret : String) (t now : Nat) (sub role : String) :
    (create_access_token secret t sub role).payload =
      { sub := sub, role := role,
        exp := t + ACCESS_TOKEN_EXPIRE_MINUTES * 60 } ∧
    (now < t + ACCESS_TOKEN_EXPIRE_MINUTES * 60 →
      verify_token secret now (create_access_token secret t sub role) =
        some { sub := sub, role := role,
               exp := t + ACCESS_TOKEN_EXPIRE_MINUTES * 60 }) ∧
    (t + ACCESS_TOKEN_EXPIRE_MINUTES * 60 < now →
      verify_token secret now (create_access_token secret t sub role) = none) :=
  ⟨rfl,
   fun h => verify_create_of_le secret t now sub role (Nat.le_of_lt h),
   fun h => verify_create_of_gt secret t now sub role h⟩

/-- Witness for C4 at a concrete input: a token issued at time 0 verifies
at time 10 s and no longer verifies at time 4000 s (more than 30 minutes
later). -/
theorem token_lifecycle_witness :
    verify_token "k" 10 (create_access_token "k" 0 "alice" "user") =
      some { sub := "alice", role := "user",
             exp := 0 + ACCESS_TOKEN_EXPIRE_MINUTES * 60 } ∧
    verify_token "k" 4000 (create_access_token "k" 0 "alice" "user") = none :=
  ⟨(token_lifecycle "k" 0 10 "alice" "user").2.1 (by decide),
   (token_lifecycle "k" 0 4000 "alice" "user").2.2 (by decide)⟩

/-- Claim C9: `verify_password` and `authenticate_user` never propagate a
bcrypt exception: where `checkpw` raises (modelled as `none`, e.g. on a
malformed stored hash), `verify_password` returns `false` and
`authenticate_user` returns `none`. -/
theorem verify_password_never_raises (b : BcryptM) (plain hashed : String)
    (users : Users) (u : String) (rec : UserRecord) :
    (b.checkpw plain hashed = none → verify_password b plain hashed = false) ∧
    (users.lookup u = some rec → b.checkpw plain rec.hashed_password = none →
      authenticate_user b users u plain = none) := by
  constructor
  · intro h
    simp [verify_password, h]
  · intro hlk h
    simp [authenticate_user, hlk, verify_password, h]

/-- Witness for C9 at a concrete input: with a bcrypt model whose
`checkpw` always raises, password verification returns `false` and
authentication of a stored user returns `none`. -/
theorem verify_password_never_raises_witness :
    verify_password bcryptRaise "pw" "garbage" = false ∧
    authenticate_user bcryptRaise [("alice", rec0)] "alice" "pw" = none :=
  ⟨(verify_password_never_raises bcryptRaise "pw" "garbage"
      [("alice", rec0)] "alice" rec0).1 rfl,
   (verify_password_never_raises bcryptRaise "pw" "garbage"
      [("alice", rec0)] "alice" rec0).2 rfl rfl⟩

/-- Claim C8: records written by the store operations hold only a salted
hash, never the plaintext: `create_user` (both branches) preserves the
`HashedStore` invariant, the default admin store created by `load_users`
satisfies it, the record created for a fresh username stores exactly
`hashpw password salt`, and — under the one-wayness assumption
`BcryptM.NotPlain` — that stored value differs from the plaintext
password (likewise for the default admin secret). -/
theorem stored_records_hashed_only (b : BcryptM) (hnp : BcryptM.NotPlain b)
    (salt : Nat) (users : Users) (u p n r admin_password : String)
    (prev : Users) (hinv : HashedStore b users) :
    HashedStore b (create_user b salt users u p n r).2 ∧
    HashedStore b (load_users b salt admin_password none prev).2 ∧
    (users.lookup u = none →
      ((create_user b salt users u p n r).2).lookup u =
        some { hashed_password := b.hashpw p salt, name := n, role := r } ∧
      b.hashpw p salt ≠ p) ∧
    b.hashpw admin_password salt ≠ admin_password := by
  refine ⟨?_, ?_, ?_, hnp admin_password salt⟩
  · cases hu : users.lookup u with
    | some rec2 =>
      simp [create_user, hu]
      exact hinv
    | none =>
      simp only [create_user, hu, Option.isSome_none, Bool.false_eq_true,
        if_false]
      intro kv hkv
      rcases List.mem_append.mp hkv with hmem | hmem
      · exact hinv kv hmem
      · have hkv2 : kv = (u, ⟨hash_password b salt p, n, r⟩) :=
          List.mem_singleton.mp hmem
        subst hkv2
        exact ⟨p, salt, rfl⟩
  · intro kv hkv
    have hkv2 : kv =
        ("admin", ⟨hash_password b salt admin_password, "Administrator", "admin"⟩) :=
      List.mem_singleton.mp hkv
    subst hkv2
    exact ⟨admin_password, salt, rfl⟩
  · intro hu
    refine ⟨?_, hnp p salt⟩
    have h2 : (create_user b salt users u p n r).2 =
        users ++ [(u, ⟨hash_password b salt p, n, r⟩)] := by
      simp [create_user, hu]
    rw [h2]
    exact lookup_append_last users u
      { hashed_password := hash_password b salt p, name := n, role := r } hu

/-- Witness for C8 at a concrete input: with the concrete bcrypt model,
creating `alice` in the empty store and first-run admin creation both
yield stores of hash-only records, and neither stored hash equals its
plaintext. -/
theorem stored_records_hashed_only_witness :
    HashedStore bcryptH
      (create_user bcryptH 0 [] "alice" "hunter2" "Alice" "user").2 ∧
    HashedStore bcryptH (load_users bcryptH 0 "adminpw" none []).2 ∧
    ((create_user bcryptH 0 [] "alice" "hunter2" "Alice" "user").2).lookup
        "alice" =
      some { hashed_password := bcryptH.hashpw "hunter2" 0,
             name := "Alice", role := "user" } ∧
    bcryptH.hashpw "hunter2" 0 ≠ "hunter2" ∧
    bcryptH.hashpw "adminpw" 0 ≠ "adminpw" :=
  let h := stored_records_hashed_only bcryptH bcryptH_not_plain 0 []
    "alice" "hunter2" "Alice" "user" "adminpw" []
    (fun kv hkv => absurd hkv (List.not_mem_nil kv))
  ⟨h.1, h.2.1, (h.2.2.1 rfl).1, (h.2.2.1 rfl).2, h.2.2.2⟩

/-- Claim C1 (divergence): the module-level routing decides on the
`authenticated` flag alone and never consults `verify_session` or the
stored token.  Concretely, with login required, a session whose
`authenticated` flag is set but whose held token has expired (issued at
time 0, clock now at 4000 s > 1800 s) is routed to the Main View even
though `verify_session` rejects it — contradicting the claim that such a
session is routed back to the Login View. -/
theorem routing_ignores_token_validity :
    sExpired.authenticated = true ∧
    verify_session "k" 4000 sExpired = false ∧
    route "YES" sExpired = View.main := by
  have h1 : verify_token "k" 4000 (create_access_token "k" 0 "admin" "admin") =
      none :=
    verify_create_of_gt "k" 0 4000 "admin" "admin" (by decide)
  refine ⟨rfl, ?_, rfl⟩
  simp [verify_session, sExpired, h1]

/-- Claim C6 (counterexample): logout does not clear the token from
session state — after pressing the logout button the session still holds
the very token it held before. -/
theorem logout_keeps_token :
    (logout sToken).access_token = some (create_access_token "k" 0 "alice" "user") ∧
    (logout sToken).access_token ≠ none := by
  constructor
  · rfl
  · simp [logout, sToken]

/-- Claim C6 (amended): logout invalidates the session by resetting the
`authenticated` flag only; every other session field — including the
access token — is left in place, and the token is not revoked
server-side: `verify_token` still accepts a token issued before logout
at any time up to its natural 30-minute expiry. -/
theorem logout_resets_flag_only (s : SessionState) (secret : String)
    (t now : Nat) (sub role : String)
    (h : now ≤ t + ACCESS_TOKEN_EXPIRE_MINUTES * 60) :
    (logout s).authenticated = false ∧
    (logout s).access_token = s.access_token ∧
    (logout s).user_role = s.user_role ∧
    (logout s).username = s.username ∧
    verify_token secret now (create_access_token secret t sub role) =
      some { sub := sub, role := role,
             exp := t + ACCESS_TOKEN_EXPIRE_MINUTES * 60 } :=
  ⟨rfl, rfl, rfl, rfl, verify_create_of_le secret t now sub role h⟩

/-- Witness for the amended C6 at a concrete input: logging out of a
concrete session resets the flag, keeps the token, and the token still
verifies 100 s after issuance. -/
theorem logout_resets_flag_only_witness :
    (logout sToken).authenticated = false ∧
    (logout sToken).access_token = sToken.access_token ∧
    (logout sToken).user_role = sToken.user_role ∧
    (logout sToken).username = sToken.username ∧
    verify_token "k" 100 (create_access_token "k" 0 "alice" "user") =
      some { sub := "alice", role := "user",
             exp := 0 + ACCESS_TOKEN_EXPIRE_MINUTES * 60 } :=
  logout_resets_flag_only sToken "k" 0 100 "alice" "user" (by decide)

/-- Claim C7 (counterexample): when loading the store fails with an
exception, the resulting in-memory mapping is not the mapping held
before the call — a nonempty prior mapping is replaced, so the claim
that the process continues with its previous in-memory mapping is
false. -/
theorem load_failure_counterexample :
    (load_users bcryptH 0 "adminpw" (some (Except.error ()))
        [("alice", rec0)]).2 ≠ [("alice", rec0)] := by
  simp [load_users]

/-- Claim C7 (amended): if loading fails with an exception, the error is
surfaced as a visible message and the in-memory mapping is reset to the
empty mapping (`self.users = {}` on the exception path); a successfully
parsed file becomes the mapping as-is; and a merely missing file
produces the freshly created default store containing only the admin
record whose password field is the hash of the configured admin
secret. -/
theorem load_users_spec (b : BcryptM) (salt : Nat) (admin_password : String)
    (prev : Users) :
    load_users b salt admin_password none prev =
      (false,
       [("admin", ⟨b.hashpw admin_password salt, "Administrator", "admin"⟩)]) ∧
    (∀ u, load_users b salt admin_password (some (Except.ok u)) prev =
      (false, u)) ∧
    (∀ e, load_users b salt admin_password (some (Except.error e)) prev =
      (true, [])) :=
  ⟨rfl, fun _ => rfl, fun _ => rfl⟩

/-- Claim C10: login gating is enabled only when the `LOGIN_REQUIRED`
secret is exactly the string `YES`: for every other value the routing
renders the Main View regardless of the session state (no authentication
check), and the sidebar with logout and user management is omitted. -/
theorem login_required_exact_match (lr : String) (hne : lr ≠ "YES")
    (s : SessionState) :
    route lr s = View.main ∧ sidebar_shown lr = false := by
  have hbe : (lr == "YES") = false := beq_eq_false_iff_ne.mpr hne
  constructor
  · simp [route, hbe]
  · simp [sidebar_shown, hbe]

/-- Witness for C10 at a concrete input: with the lowercase value `yes`
and an unauthenticated tokenless session, the Main View is rendered and
the sidebar is omitted. -/
theorem login_required_exact_match_witness :
    route "yes" sPlain = View.main ∧ sidebar_shown "yes" = false :=
  login_required_exact_match "yes" (by decide) sPlain

end App
